import Mathlib

/-
  Verification of the bulk-insert tokenization pipeline
  (SkyflowFoundry/bulk_insert_tokenization).

  The repository holds three Python scripts sharing one pipeline shape:
    - src/tokenize_data.py                          (namespace TokenizeData)
    - src/CSV_Tokenization/tokenize_data_csv.py     (namespace CSVTok)
    - src/Postgres_Tokenization/tokenize_data_postgres.py
  The Postgres script's make_api_call and process_chunk are textually
  identical to the CSV script's, so the CSVTok definitions embed both.

  The embedding is shallow: field values are strings, an HTTP response is a
  status code plus an optional decoded JSON records list, the network is an
  environment function giving the response of each POST attempt, and the
  thread pool is an explicit completion order (a permutation of the chunk
  indices) in which the per-chunk file appends happen.
-/

namespace BulkTok

/-- One entry of the service response records list: the optional skyflow_id
value and, when the tokens key is present, the token map (an association
list, insertion-ordered exactly like the decoded JSON object). -/
structure RespRecord where
  skyflow_id : Option String
  tokens : Option (List (String × String))
deriving Repr, DecidableEq

/-- A decoded HTTP response: status code, plus the records list when the
body is JSON with a records key (none embeds a body without that key). -/
structure Resp where
  status : Nat
  records : Option (List RespRecord)
deriving Repr, DecidableEq

/-- Python dict lookup d.get(k) on an association list. -/
def lookupStr (m : List (String × String)) (k : String) : Option String :=
  (m.find? (fun p => p.1 = k)).map Prod.snd

/-- Python list indexing l[i], which raises IndexError out of range. -/
def pyGet {α : Type} (l : List α) (i : Nat) : Except String α :=
  if h : i < l.length then .ok l[i] else .error "IndexError"

/-- The value of a non-raising computation, with a default for the
raising case. -/
def exceptGetD {α : Type} (e : Except String α) (d : α) : α :=
  match e with
  | .ok a => a
  | .error _ => d

namespace CSVTok

/-- Embeds get_filtered_columns of tokenize_data_csv.py: the raw
skip_columns config value is split on commas, blank entries are dropped,
the rest are trimmed and lowercased; header names are lowercased; the
filtered (tokenize) columns are the header names not in the skip list.
(tokenize_data_postgres.py computes the same lists, reading the header
names from information_schema instead of the CSV header row.) -/
def get_filtered_columns (skipConfig : String) (headerRow : List String) :
    List String × List String × List String :=
  let skip_columns :=
    ((skipConfig.splitOn ",").filter (fun c => c.trim ≠ "")).map
      (fun c => c.trim.toLower)
  let all_columns := headerRow.map (fun c => c.toLower)
  let filtered_columns := all_columns.filter (fun c => !(skip_columns.contains c))
  (filtered_columns, skip_columns, all_columns)

/-- Embeds Python range(0, stop, step) as the main loop uses it
(for offset in range(0, row_count, rows_per_chunk)): step 0 raises
ValueError when the range object is built, a negative step yields no
offsets at all (start 0 is never above the nonnegative stop), and a
positive step yields the multiples of step below stop. -/
def pyRange0 (stop : Nat) (step : Int) : Except String (List Nat) :=
  if step = 0 then .error "ValueError: range() arg 3 must not be zero"
  else if step < 0 then .ok []
  else .ok ((List.range ((stop + step.toNat - 1) / step.toNat)).map (fun i => i * step.toNat))

/-- The chunk start offsets the main loop iterates over for a positive
chunk size: 0, cs, 2*cs, ... below the row count. -/
def chunkOffsets (rowCount cs : Nat) : List Nat :=
  (List.range ((rowCount + cs - 1) / cs)).map (fun i => i * cs)

/-- Embeds fetch_file_data of tokenize_data_csv.py: the slice
rows[offset:offset+rows_per_chunk] of the data rows, paired with the
(unused) first row. -/
def fetch_file_data (rows : List (List String)) (offset rows_per_chunk : Nat) :
    List (List String) × List String :=
  ((rows.drop offset).take rows_per_chunk, rows.getD 0 [])

/-- Embeds make_api_call of tokenize_data_csv.py (identical in
tokenize_data_postgres.py). The environment env gives the status code of
each successive POST; the result is the status of the response the
function returns, the number of POST calls made, and the list of sleep
durations in seconds, in order. A 200 returns at once; a 429 sleeps 5
seconds, any other status 1 second, and the loop retries up to the
3-attempt budget; the sleep also happens after the final failed attempt,
and the last response is returned. -/
def make_api_call_go (env : Nat → Nat) : Nat → Nat → Nat × Nat × List Nat
  | _attempt, 0 => (0, 0, [])
  | attempt, r + 1 =>
    let s := env attempt
    if s = 200 then (s, 1, [])
    else
      let d := if s = 429 then 5 else 1
      if r = 0 then (s, 1, [d])
      else
        let rest := make_api_call_go env (attempt + 1) r
        (rest.1, rest.2.1 + 1, d :: rest.2.2)

/-- make_api_call with the source's fixed retries = 3. -/
def make_api_call (env : Nat → Nat) : Nat × Nat × List Nat :=
  make_api_call_go env 0 3

/-- Embeds the payload record built for one row by process_chunk of
tokenize_data_csv.py / tokenize_data_postgres.py: for i, col in
enumerate(all_columns[1:]), the field col with value row[i] is added
unless col is in skip_columns. Faithful to the Python dict for distinct
column names (the run's headers); on a duplicate name Python would
overwrite in place where this list keeps both entries. An out-of-range
row index appears as none here where Python would raise IndexError; the
theorems assume rows at least as long as the column list. -/
def payloadRecord (all_columns skip_columns : List String) (row : List String) :
    List (String × Option String) :=
  (all_columns.drop 1).enum.filterMap (fun p =>
    if skip_columns.contains p.2 then none else some (p.2, row[p.1]?))

/-- The records list of the request payload: one payloadRecord per row. -/
def buildPayload (rows : List (List String)) (all_columns skip_columns : List String) :
    List (List (String × Option String)) :=
  rows.map (payloadRecord all_columns skip_columns)

/-- Embeds the response-consuming loop of process_chunk
(tokenize_data_csv.py lines 168-176): for i, row in enumerate(rows),
read records[i] (IndexError when the response has fewer records than the
chunk has rows), read its tokens key, and build
[skyflow_id, cell_1, ..., cell_m] where the cell of a skipped column is
row[all_columns[1:].index(col)] and the cell of a tokenized column is
tokens.get(col, row[all_columns[1:].index(col)]). -/
def assembleRows (recs : List RespRecord) (all_columns skip_columns : List String) :
    Nat → List (List String) → Except String (List (List (Option String)))
  | _, [] => .ok []
  | i, row :: rest => do
    let rec_i ← pyGet recs i
    let tokens ← match rec_i.tokens with
      | some t => Except.ok t
      | none => Except.error "KeyError: tokens"
    let cells ← (all_columns.drop 1).mapM (fun col => do
      let dflt ← pyGet row ((all_columns.drop 1).indexOf col)
      if skip_columns.contains col then Except.ok dflt
      else Except.ok ((lookupStr tokens col).getD dflt))
    let rest' ← assembleRows recs all_columns skip_columns (i + 1) rest
    Except.ok ((rec_i.skyflow_id :: cells.map some) :: rest')

/-- Embeds the response handling of process_chunk in tokenize_data_csv.py
(and tokenize_data_postgres.py): on a 200 whose body has a records key
with every record carrying a tokens key, assemble the tokenized rows;
otherwise log (the Bool records whether the unexpected-structure error
was logged) and return the empty tokenized_rows list. A non-200 response
returns the empty list too: this variant writes failed rows nowhere. -/
def csvAssemble (rows : List (List String)) (all_columns skip_columns : List String)
    (response : Resp) : Except String (List (List (Option String))) × Bool :=
  if response.status = 200 then
    match response.records with
    | some recs =>
      if recs.all (fun r => r.tokens.isSome) then
        (assembleRows recs all_columns skip_columns 0 rows, false)
      else (.ok [], true)
    | none => (.ok [], true)
  else (.ok [], false)

/-- The main loop of tokenize_data_csv.py appends each completed chunk's
tokenized rows to the temp file in the order the futures complete; order
lists the chunk indices in completion order. An exception inside a chunk
(completed_future.result()) propagates and aborts the run, hence the
Except. -/
def runWrites (chunks : List (List (List String))) (all_columns skip_columns : List String)
    (resps : Nat → Resp) (order : List Nat) :
    Except String (List (List (Option String))) :=
  (order.mapM (fun i => (csvAssemble (chunks.getD i []) all_columns skip_columns (resps i)).1)).map
    (fun written => written.flatten)

/-- The rows chunk i contributes to the temp file when its process_chunk
call returns normally (the error branch is the uncaught-exception case,
in which the run writes nothing further). -/
def chunkResultRows (chunks : List (List (List String)))
    (all_columns skip_columns : List String) (resps : Nat → Resp) (i : Nat) :
    List (List (Option String)) :=
  exceptGetD ((csvAssemble (chunks.getD i []) all_columns skip_columns (resps i)).1) []

end CSVTok

namespace TokenizeData

/-- A csv.DictReader row of tokenize_data.py: field name to value. -/
abbrev DRow := List (String × String)

/-- Python row.get(field) on a DictReader row. -/
def dictGet (row : DRow) (k : String) : Option String := lookupStr row k

/-- A row as csv.DictWriter writes it: the row's values in fieldnames
order (the original field order of the input file). -/
def projectRow (fieldnames : List String) (row : DRow) : List (Option String) :=
  fieldnames.map (fun f => dictGet row f)

/-- What one process_chunk call of tokenize_data.py appends to the two
files, plus whether the tokenization-unsuccessful error was logged. -/
structure ChunkResult where
  written : List (List (Option String))
  failed : List (List (Option String))
  loggedMalformed : Bool
deriving Repr, DecidableEq

/-- Embeds process_chunk of tokenize_data.py. On a 200 the
well-formedness check only logs; the rows written are
zip(rows, response_data.get(records, [])) — zip truncates at the shorter
list — each written row being skyflow_id followed by
tokens.get(field, original_row.get(field)) for every fieldname. On a
non-200 the original rows are appended to the failed-records file in
fieldnames order and nothing is written to the output. -/
def process_chunk (rows : List DRow) (fieldnames : List String) (response : Resp) :
    ChunkResult :=
  if response.status = 200 then
    let records := response.records.getD []
    let logged := !(response.records.isSome && records.all (fun r => r.tokens.isSome))
    let written := (rows.zip records).map (fun p =>
      let tokens := p.2.tokens.getD []
      p.2.skyflow_id :: fieldnames.map (fun f =>
        match lookupStr tokens f with
        | some t => some t
        | none => dictGet p.1 f))
    ⟨written, [], logged⟩
  else
    ⟨[], rows.map (projectRow fieldnames), false⟩

/-- Embeds make_api_call of tokenize_data.py: same 3-attempt loop as the
CSV variant but the backoff is a fixed 1 second for every non-200
status, 429 included. Result: (returned status, POST calls made, sleeps). -/
def make_api_call_go (env : Nat → Nat) : Nat → Nat → Nat × Nat × List Nat
  | _attempt, 0 => (0, 0, [])
  | attempt, r + 1 =>
    let s := env attempt
    if s = 200 then (s, 1, [])
    else if r = 0 then (s, 1, [1])
    else
      let rest := make_api_call_go env (attempt + 1) r
      (rest.1, rest.2.1 + 1, 1 :: rest.2.2)

/-- make_api_call with the source's fixed retries = 3. -/
def make_api_call (env : Nat → Nat) : Nat × Nat × List Nat :=
  make_api_call_go env 0 3

/-- The files written by chunk i of a run: resp gives each chunk's final
API response (the one make_api_call returned after its retries). -/
def runChunk (chunks : List (List DRow)) (fieldnames : List String)
    (resp : Nat → Resp) (i : Nat) : ChunkResult :=
  process_chunk (chunks.getD i []) fieldnames (resp i)

/-- The temp-output file contents after the run: each chunk appends its
written rows when it completes; order lists chunk indices in completion
order. -/
def runWritten (chunks : List (List DRow)) (fieldnames : List String)
    (resp : Nat → Resp) (order : List Nat) : List (List (Option String)) :=
  order.flatMap (fun i => (runChunk chunks fieldnames resp i).written)

/-- The failed-records appends of the run, in completion order. -/
def runFailed (chunks : List (List DRow)) (fieldnames : List String)
    (resp : Nat → Resp) (order : List Nat) : List (List (Option String)) :=
  order.flatMap (fun i => (runChunk chunks fieldnames resp i).failed)

/-- Embeds tokenize_data.py lines 120-121: opening FAILED_RECORDS_FILE in
mode w and closing it discards whatever the file held before the run. -/
def truncateFailedFile (_prior : List (List (Option String))) :
    List (List (Option String)) := []

/-- The failed-records file contents after a whole run: the startup
truncation of the pre-run contents, followed by the run's appends. -/
def failedFileAfterRun (prior : List (List (Option String)))
    (chunks : List (List DRow)) (fieldnames : List String)
    (resp : Nat → Resp) (order : List Nat) : List (List (Option String)) :=
  truncateFailedFile prior ++ runFailed chunks fieldnames resp order

end TokenizeData

/-- The three-row source of the spec's end-to-end example, used as the
concrete input of several witnesses. -/
def sampleDataRows : List (List String) :=
  [["A", "111", "X"], ["B", "222", "Y"], ["C", "333", "Z"]]

/-- Modelled from the spec (Result Assembler contract, claim C8's
specification side): the OutputRow built for one row of a successful
chunk is the record_id from the service response followed by, for each
column after record_id, the token value when the column is
tokenize-tagged and the service returned a token for it, and the
original field value otherwise. -/
def specOutputRow (r : RespRecord) (columns skip_columns : List String) (row : List String) :
    List (Option String) :=
  r.skyflow_id :: columns.enum.map (fun p =>
    some (if skip_columns.contains p.2 then row.getD p.1 ""
          else (lookupStr (r.tokens.getD []) p.2).getD (row.getD p.1 "")))

/-- A well-formed service response for the three sample rows; the second
record deliberately omits the ssn token, exercising the original-value
fallback. -/
def sampleRecs : List RespRecord :=
  [⟨some "id0", some [("name", "nA"), ("ssn", "sA")]⟩,
   ⟨some "id1", some [("name", "nB")]⟩,
   ⟨some "id2", some [("name", "nC"), ("ssn", "sC")]⟩]

/-- Two one-row chunks of DictReader rows, for the run-level witnesses. -/
def sampleChunksD : List (List TokenizeData.DRow) :=
  [[[("name", "A")]], [[("name", "B")]]]

/-- Chunk 0 permanently fails with 500; chunk 1 succeeds. -/
def sampleRespFun : Nat → Resp := fun i =>
  if i = 0 then ⟨500, none⟩
  else ⟨200, some [⟨some "id1", some [("name", "tokB")]⟩]⟩

/-- Two one-row, one-column chunks for the CSV-variant run examples. -/
def cexChunks : List (List (List String)) := [[["A"]], [["B"]]]

/-- Chunk 0 permanently fails with 500; chunk 1 succeeds. -/
def cexResp : Nat → Resp := fun i =>
  if i = 0 then ⟨500, none⟩
  else ⟨200, some [⟨some "sid1", some [("name", "tokB")]⟩]⟩

/-- Two one-row chunks for the completion-order example. -/
def orderedChunks : List (List (List String)) := [[["A"]], [["B"]]]

/-- Both chunks succeed, with distinguishable ids and tokens. -/
def orderedResp : Nat → Resp := fun i =>
  ⟨200, some [⟨some (if i = 0 then "sid0" else "sid1"),
               some [("name", if i = 0 then "tokA" else "tokB")]⟩]⟩

/- ===================== helper lemmas ===================== -/

theorem ok_bind {α β : Type} (a : α) (f : α → Except String β) :
    (Except.ok a >>= f) = f a := rfl

theorem mapM_ok {α β : Type} (f : α → Except String β) (g : α → β) :
    ∀ l : List α, (∀ a ∈ l, f a = .ok (g a)) → l.mapM f = .ok (l.map g)
  | [], _ => rfl
  | a :: t, h => by
    rw [List.mapM_cons, h a (List.mem_cons_self a t),
      mapM_ok f g t (fun x hx => h x (List.mem_cons_of_mem _ hx))]
    rfl

theorem flatMap_nil_of {β : Type} (f : Nat → List β) :
    ∀ l : List Nat, (∀ i ∈ l, f i = []) → l.flatMap f = []
  | [], _ => rfl
  | a :: t, h => by
    rw [List.flatMap_cons, h a (List.mem_cons_self a t),
      flatMap_nil_of f t (fun i hi => h i (List.mem_cons_of_mem _ hi))]
    rfl

theorem flatMap_single {β : Type} (f : Nat → List β) (k : Nat) :
    ∀ l : List Nat, l.count k = 1 → (∀ i ∈ l, i ≠ k → f i = []) → l.flatMap f = f k
  | [], hc, _ => by simp at hc
  | a :: t, hc, h => by
    rw [List.flatMap_cons]
    by_cases hak : a = k
    · subst hak
      have ht0 : t.count a = 0 := by
        rw [List.count_cons_self] at hc
        omega
      have : t.flatMap f = [] := by
        apply flatMap_nil_of
        intro i hi
        apply h i (List.mem_cons_of_mem _ hi)
        intro hik
        subst hik
        rw [List.count_eq_zero] at ht0
        exact ht0 hi
      rw [this, List.append_nil]
    · rw [h a (List.mem_cons_self a t) hak, List.nil_append]
      apply flatMap_single f k t _ (fun i hi => h i (List.mem_cons_of_mem _ hi))
      rw [List.count_cons_of_ne (by omega)] at hc
      exact hc

theorem flatMap_eq_filter_flatMap {β : Type} (f : Nat → List β) (p : Nat → Bool)
    (g : Nat → List β) (h : ∀ i, (p i = true → f i = g i) ∧ (p i = false → f i = [])) :
    ∀ l : List Nat, l.flatMap f = (l.filter p).flatMap g
  | [] => rfl
  | a :: t => by
    rw [List.flatMap_cons, List.filter_cons]
    rcases hp : p a with hf | ht
    · rw [(h a).2 hp, List.nil_append]
      exact flatMap_eq_filter_flatMap f p g h t
    · rw [(h a).1 hp, if_pos rfl, List.flatMap_cons]
      rw [flatMap_eq_filter_flatMap f p g h t]

theorem specRow_head (cols skip_columns : List String) (row : List String)
    (hnd : cols.Nodup) (r : RespRecord) (t : List (String × String)) (ht : r.tokens = some t) :
    (r.skyflow_id :: ((cols.map (fun col =>
        if skip_columns.contains col then row.getD (cols.indexOf col) ""
        else (lookupStr t col).getD (row.getD (cols.indexOf col) ""))).map some))
      = specOutputRow r cols skip_columns row := by
  rw [specOutputRow, ht]
  congr 1
  apply List.ext_getElem
  · simp
  · intro j hj1 hj2
    have hjlen : j < cols.length := by simpa using hj1
    simp only [List.getElem_map, List.getElem_enum, Option.getD_some]
    rw [List.indexOf_getElem hnd j hjlen]

theorem assembleRows_eq (recs : List RespRecord) (all_columns skip_columns : List String)
    (hnd : (all_columns.drop 1).Nodup) :
    ∀ (rows : List (List String)) (i : Nat),
      recs.length = i + rows.length →
      (∀ row ∈ rows, (all_columns.drop 1).length ≤ row.length) →
      (∀ r ∈ recs, r.tokens.isSome) →
      CSVTok.assembleRows recs all_columns skip_columns i rows
        = .ok ((rows.zip (recs.drop i)).map
            (fun p => specOutputRow p.2 (all_columns.drop 1) skip_columns p.1))
  | [], i, hlen, _, _ => by simp [CSVTok.assembleRows]
  | row :: rest, i, hlen, hrow, htok => by
    have hi : i < recs.length := by simp at hlen; omega
    have hrec : pyGet recs i = .ok recs[i] := by rw [pyGet, dif_pos hi]
    obtain ⟨t, ht⟩ := Option.isSome_iff_exists.mp (htok recs[i] (recs.getElem_mem hi))
    have hrl : (all_columns.drop 1).length ≤ row.length :=
      hrow row (List.mem_cons_self _ _)
    have hcells : (all_columns.drop 1).mapM (fun col => do
        let dflt ← pyGet row ((all_columns.drop 1).indexOf col)
        if skip_columns.contains col then Except.ok dflt
        else Except.ok ((lookupStr t col).getD dflt))
        = .ok ((all_columns.drop 1).map (fun col =>
            if skip_columns.contains col
            then row.getD ((all_columns.drop 1).indexOf col) ""
            else (lookupStr t col).getD (row.getD ((all_columns.drop 1).indexOf col) ""))) := by
      apply mapM_ok
      intro col hcol
      have hidx : (all_columns.drop 1).indexOf col < row.length :=
        lt_of_lt_of_le (List.indexOf_lt_length.mpr hcol) hrl
      have hg : pyGet row ((all_columns.drop 1).indexOf col)
          = .ok (row.getD ((all_columns.drop 1).indexOf col) "") := by
        rw [pyGet, dif_pos hidx, List.getD_eq_getElem _ _ hidx]
      rw [hg, ok_bind]
      by_cases hc : col ∈ skip_columns
      · simp [hc]
      · simp [hc]
    have hrest := assembleRows_eq recs all_columns skip_columns hnd rest (i + 1)
      (by simp at hlen ⊢; omega)
      (fun r hr => hrow r (List.mem_cons_of_mem _ hr)) htok
    rw [CSVTok.assembleRows, hrec, ok_bind, ht]
    show (((all_columns.drop 1).mapM (fun col => do
        let dflt ← pyGet row ((all_columns.drop 1).indexOf col)
        if skip_columns.contains col then Except.ok dflt
        else Except.ok ((lookupStr t col).getD dflt))) >>= fun cells =>
      (CSVTok.assembleRows recs all_columns skip_columns (i + 1) rest) >>= fun rest' =>
      Except.ok ((recs[i].skyflow_id :: cells.map some) :: rest')) = _
    rw [hcells, ok_bind, hrest, ok_bind]
    have hdrop : recs.drop i = recs[i] :: recs.drop (i + 1) :=
      List.drop_eq_getElem_cons hi
    rw [hdrop, List.zip_cons_cons, List.map_cons]
    exact congrArg Except.ok (List.cons_eq_cons.mpr
      ⟨specRow_head (all_columns.drop 1) skip_columns row hnd recs[i] t ht, rfl⟩)

theorem filterMap_if_not_contains (skip : List String) :
    ∀ l : List String,
      l.filterMap (fun c => if skip.contains c then none else some c)
        = l.filter (fun c => !(skip.contains c))
  | [] => rfl
  | c :: t => by
    have ih := filterMap_if_not_contains skip t
    rw [List.filterMap_cons, List.filter_cons]
    by_cases hc : c ∈ skip
    · have hb : skip.contains c = true := by simp [hc]
      rw [hb]
      simpa using ih
    · have hb : skip.contains c = false := by simp [hc]
      rw [hb]
      simpa using ih

theorem filter_skip_disjoint_union (skip all : List String) :
    ((all.filter (fun c => !(skip.contains c))).toFinset ∩ skip.toFinset = ∅) ∧
    ((all.filter (fun c => !(skip.contains c))).toFinset ∪ (skip.toFinset ∩ all.toFinset)
      = all.toFinset) := by
  constructor
  · ext c
    simp [List.mem_filter]
  · ext c
    simp [List.mem_filter]
    tauto

theorem payloadRecord_keys (all_columns skip_columns : List String) (row : List String) :
    (CSVTok.payloadRecord all_columns skip_columns row).map Prod.fst
      = (all_columns.drop 1).filter (fun c => !(skip_columns.contains c)) := by
  rw [CSVTok.payloadRecord, List.map_filterMap]
  have e1 : (fun (p : Nat × String) =>
      (if skip_columns.contains p.2 then none else some (p.2, row[p.1]?)).map Prod.fst)
      = (fun (p : Nat × String) => if skip_columns.contains p.2 then none else some p.2) := by
    funext p
    rcases hb : skip_columns.contains p.2 with hf | ht <;> simp [hb]
  rw [e1]
  have e2 : (fun (p : Nat × String) => if skip_columns.contains p.2 then none else some p.2)
      = (fun c => if skip_columns.contains c then none else some c) ∘ Prod.snd := rfl
  rw [e2, ← List.filterMap_map, List.enum_map_snd, filterMap_if_not_contains]

theorem chunkOffsets_flatMap {α : Type} (cs : Nat) (hcs : 0 < cs) :
    ∀ (n : Nat) (l : List α), (l.length + cs - 1) / cs = n →
      (CSVTok.chunkOffsets l.length cs).flatMap (fun o => (l.drop o).take cs) = l := by
  intro n
  induction n with
  | zero =>
    intro l hl
    have hlen : l.length = 0 := by
      by_contra h
      have h1 : cs ≤ l.length + cs - 1 := by omega
      have := Nat.div_le_div_right (c := cs) h1
      rw [Nat.div_self hcs] at this
      omega
    rw [List.length_eq_zero] at hlen
    subst hlen
    simp [CSVTok.chunkOffsets, Nat.div_eq_of_lt (by omega : 0 + cs - 1 < cs)]
  | succ n ih =>
    intro l hl
    have hlen : 1 ≤ l.length := by
      by_contra h
      have h0 : l.length = 0 := by omega
      rw [h0, Nat.div_eq_of_lt (by omega : 0 + cs - 1 < cs)] at hl
      exact Nat.succ_ne_zero n hl.symm
    have harith : (l.length - cs + cs - 1) / cs = n := by
      rcases le_or_lt l.length cs with hle | hgt
      · have h1 : l.length - cs = 0 := by omega
        have h2 : (l.length + cs - 1) / cs = 1 :=
          Nat.div_eq_of_lt_le (by omega) (by omega)
        rw [h2] at hl
        rw [h1, Nat.div_eq_of_lt (by omega : 0 + cs - 1 < cs)]
        omega
      · have h1 : l.length + cs - 1 = (l.length - cs + cs - 1) + cs := by omega
        rw [h1, Nat.add_div_right _ hcs] at hl
        omega
    have ihd := ih (l.drop cs) (by rw [List.length_drop]; exact harith)
    rw [CSVTok.chunkOffsets, hl, List.range_succ_eq_map]
    rw [List.map_cons, List.flatMap_cons]
    have hmm : ((List.range n).map Nat.succ).map (fun i => i * cs)
        = (List.range n).map (fun i => i.succ * cs) := by
      rw [List.map_map]; rfl
    rw [hmm]
    have htail : ((List.range n).map (fun i => i.succ * cs)).flatMap
        (fun o => (l.drop o).take cs)
        = ((List.range n).map (fun i => i * cs)).flatMap
          (fun o => ((l.drop cs).drop o).take cs) := by
      rw [List.flatMap_map, List.flatMap_map]
      apply List.flatMap_congr
      intro x _
      show (l.drop (x.succ * cs)).take cs = ((l.drop cs).drop (x * cs)).take cs
      rw [List.drop_drop]
      have hsm : x.succ * cs = cs + x * cs := by
        rw [Nat.succ_mul, Nat.add_comm]
      rw [hsm]
    rw [htail]
    have ihd' : ((List.range n).map (fun i => i * cs)).flatMap
        (fun o => ((l.drop cs).drop o).take cs) = l.drop cs := by
      have e : CSVTok.chunkOffsets (l.drop cs).length cs
          = (List.range n).map (fun i => i * cs) := by
        rw [CSVTok.chunkOffsets, List.length_drop, harith]
      rw [e] at ihd
      exact ihd
    rw [ihd']
    simp [List.take_append_drop]

theorem pyRange0_pos (rc cs : Nat) (hcs : 0 < cs) :
    CSVTok.pyRange0 rc (cs : Int) = .ok (CSVTok.chunkOffsets rc cs) := by
  rw [CSVTok.pyRange0, if_neg (by omega), if_neg (by omega)]
  rw [CSVTok.chunkOffsets]
  norm_num

theorem chunkOffsets_pairwise (rc cs : Nat) (hcs : 0 < cs) :
    (CSVTok.chunkOffsets rc cs).Pairwise (· < ·) := by
  rw [CSVTok.chunkOffsets]
  exact List.Pairwise.map _ (fun a b hab => mul_lt_mul_of_pos_right hab hcs)
    (List.pairwise_lt_range _)

theorem chunkOffsets_getD (rc cs i : Nat) (hi : i < (rc + cs - 1) / cs) :
    (CSVTok.chunkOffsets rc cs).getD i 0 = i * cs := by
  rw [CSVTok.chunkOffsets]
  rw [List.getD_eq_getElem _ _ (by simpa using hi)]
  simp

theorem chunk_not_last_full {α : Type} (l : List α) (cs i : Nat) (hcs : 0 < cs)
    (hi : i + 1 < (l.length + cs - 1) / cs) :
    ((l.drop (i * cs)).take cs).length = cs := by
  have h2 : (i + 2) * cs ≤ l.length + cs - 1 :=
    (Nat.le_div_iff_mul_le hcs).mp (by omega : i + 2 ≤ (l.length + cs - 1) / cs)
  have h3 : (i + 2) * cs = i * cs + cs + cs := by ring
  rw [h3] at h2
  rw [List.length_take, List.length_drop]
  omega

theorem except_eq_ok_extract {α : Type} (e : Except String α) (d : α)
    (h : ∃ L, e = .ok L) : e = .ok (exceptGetD e d) := by
  obtain ⟨L, hL⟩ := h
  rw [hL]
  rfl

theorem csvAssemble_success (rows : List (List String))
    (all_columns skip_columns : List String) (recs : List RespRecord)
    (hnd : (all_columns.drop 1).Nodup)
    (hlen : ∀ row ∈ rows, (all_columns.drop 1).length ≤ row.length)
    (hrecs : recs.length = rows.length)
    (htok : ∀ r ∈ recs, r.tokens.isSome) :
    (CSVTok.csvAssemble rows all_columns skip_columns ⟨200, some recs⟩).1
      = .ok ((rows.zip recs).map
          (fun p => specOutputRow p.2 (all_columns.drop 1) skip_columns p.1)) := by
  have hall : recs.all (fun r => r.tokens.isSome) = true := by
    rw [List.all_eq_true]
    exact htok
  have hopen : CSVTok.csvAssemble rows all_columns skip_columns ⟨200, some recs⟩
      = (CSVTok.assembleRows recs all_columns skip_columns 0 rows, false) := by
    rw [CSVTok.csvAssemble]
    simp [hall]
  rw [hopen]
  show CSVTok.assembleRows recs all_columns skip_columns 0 rows = _
  rw [assembleRows_eq recs all_columns skip_columns hnd rows 0 (by omega) hlen htok,
    List.drop_zero]

theorem runWrites_ok (chunks : List (List (List String)))
    (all_columns skip_columns : List String) (resps : Nat → Resp) (order : List Nat)
    (h : ∀ i ∈ order,
      ∃ L, (CSVTok.csvAssemble (chunks.getD i []) all_columns skip_columns (resps i)).1
        = .ok L) :
    CSVTok.runWrites chunks all_columns skip_columns resps order
      = .ok ((order.map (CSVTok.chunkResultRows chunks all_columns skip_columns resps)).flatten) := by
  have hmm := mapM_ok
    (fun i => (CSVTok.csvAssemble (chunks.getD i []) all_columns skip_columns (resps i)).1)
    (CSVTok.chunkResultRows chunks all_columns skip_columns resps) order
    (fun i hi => by
      rw [CSVTok.chunkResultRows]
      exact except_eq_ok_extract _ [] (h i hi))
  rw [CSVTok.runWrites, hmm]
  rfl

/- ===================== claim theorems ===================== -/

/-- C3: for every row list and every chunk size at least 1, the offsets
the main loop of tokenize_data_csv.py iterates over
(range(0, row_count, rows_per_chunk)) together with the slices
fetch_file_data takes at those offsets tile the data exactly:
concatenating the chunks in emission order reproduces the row list (so
there is no gap and no overlap), the start offsets are strictly
ascending, every chunk except the last holds exactly chunk_size rows,
and every chunk holds at most chunk_size rows. -/
theorem chunk_partitioner_tiles (cs : Nat) (hcs : 0 < cs) (l : List (List String)) :
    CSVTok.pyRange0 l.length (cs : Int) = .ok (CSVTok.chunkOffsets l.length cs) ∧
    (CSVTok.chunkOffsets l.length cs).flatMap
      (fun o => (CSVTok.fetch_file_data l o cs).1) = l ∧
    (CSVTok.chunkOffsets l.length cs).Pairwise (· < ·) ∧
    (∀ i, i + 1 < (CSVTok.chunkOffsets l.length cs).length →
      ((CSVTok.fetch_file_data l ((CSVTok.chunkOffsets l.length cs).getD i 0) cs).1).length = cs) ∧
    (∀ o ∈ CSVTok.chunkOffsets l.length cs,
      ((CSVTok.fetch_file_data l o cs).1).length ≤ cs) := by
  refine ⟨pyRange0_pos _ _ hcs, chunkOffsets_flatMap cs hcs _ l rfl,
    chunkOffsets_pairwise _ _ hcs, ?_, ?_⟩
  · intro i hi
    have hlen : (CSVTok.chunkOffsets l.length cs).length = (l.length + cs - 1) / cs := by
      simp [CSVTok.chunkOffsets]
    rw [hlen] at hi
    rw [chunkOffsets_getD _ _ _ (by omega)]
    exact chunk_not_last_full l cs i hcs hi
  · intro o _
    show ((l.drop o).take cs).length ≤ cs
    simp [List.length_take_le]

/-- C3 witness: the spec's end-to-end example, three rows with chunk size
2: hypothesis 0 < 2 holds and concatenating the two emitted chunks gives
back the three rows. -/
theorem chunk_partitioner_tiles_witness :
    0 < 2 ∧
    (CSVTok.chunkOffsets sampleDataRows.length 2).flatMap
      (fun o => (CSVTok.fetch_file_data sampleDataRows o 2).1) = sampleDataRows :=
  ⟨by decide, (chunk_partitioner_tiles 2 (by decide) sampleDataRows).2.1⟩


/-- C4: for every configured skip string and every source header, the
Column Reconciler's output partitions the columns: the tokenize list and
the skip list are disjoint, and the tokenize list together with the skip
entries that actually match a source column equals the full column list
(the skyflow_id-prepended list of the main script) with the synthetic
record_id column excluded — skip entries absent from the source are the
silently ignored ones, exactly as the claim's parenthetical states. -/
theorem column_reconciler_partition (skipConfig : String) (headerRow : List String) :
    ((CSVTok.get_filtered_columns skipConfig headerRow).1.toFinset ∩
      (CSVTok.get_filtered_columns skipConfig headerRow).2.1.toFinset = ∅) ∧
    ((CSVTok.get_filtered_columns skipConfig headerRow).1.toFinset ∪
      ((CSVTok.get_filtered_columns skipConfig headerRow).2.1.toFinset ∩
        (CSVTok.get_filtered_columns skipConfig headerRow).2.2.toFinset) =
      (("skyflow_id" :: (CSVTok.get_filtered_columns skipConfig headerRow).2.2).drop 1).toFinset) :=
  filter_skip_disjoint_union _ _

/-- C5 amended: on a chunk whose every attempt returns HTTP 429, both
clients make exactly 3 POST calls and return the last 429 response,
which the caller treats as chunk failure (tokenize_data.py then routes
the rows to the failed-records file); the CSV and Postgres variant
sleeps 5 seconds after each failed attempt (the final one included),
while tokenize_data.py sleeps a fixed 1 second, not 5, between its
attempts. -/
theorem retry_429_amended (env : Nat → Nat) (h : ∀ i, i < 3 → env i = 429) :
    CSVTok.make_api_call env = (429, 3, [5, 5, 5]) ∧
    TokenizeData.make_api_call env = (429, 3, [1, 1, 1]) ∧
    (∀ (rows : List TokenizeData.DRow) (fieldnames : List String),
      (TokenizeData.process_chunk rows fieldnames ⟨429, none⟩).written = [] ∧
      (TokenizeData.process_chunk rows fieldnames ⟨429, none⟩).failed
        = rows.map (TokenizeData.projectRow fieldnames)) := by
  have h0 := h 0 (by omega)
  have h1 := h 1 (by omega)
  have h2 := h 2 (by omega)
  refine ⟨?_, ?_, ?_⟩
  · simp [CSVTok.make_api_call, CSVTok.make_api_call_go, h0, h1, h2]
  · simp [TokenizeData.make_api_call, TokenizeData.make_api_call_go, h0, h1, h2]
  · intro rows fieldnames
    constructor <;> rfl

/-- C5 witness: the all-429 environment satisfies the hypothesis and the
amended conclusion evaluates as stated. -/
theorem retry_429_amended_witness :
    CSVTok.make_api_call (fun _ => 429) = (429, 3, [5, 5, 5]) ∧
    TokenizeData.make_api_call (fun _ => 429) = (429, 3, [1, 1, 1]) ∧
    (∀ (rows : List TokenizeData.DRow) (fieldnames : List String),
      (TokenizeData.process_chunk rows fieldnames ⟨429, none⟩).written = [] ∧
      (TokenizeData.process_chunk rows fieldnames ⟨429, none⟩).failed
        = rows.map (TokenizeData.projectRow fieldnames)) :=
  retry_429_amended (fun _ => 429) (fun _ _ => rfl)

/-- C5 counterexample: the claim says the Tokenization Client sleeps a
fixed 5 seconds between all-429 attempts, and it cites make_api_call of
tokenize_data.py among its implementations; that client's sleep list on
an all-429 chunk is [1, 1, 1], not 5 seconds. -/
theorem retry_429_counterexample :
    (TokenizeData.make_api_call (fun _ => 429)).2.2 = [1, 1, 1] ∧
    ((TokenizeData.make_api_call (fun _ => 429)).2.2 ≠ [5, 5, 5]) := by
  constructor
  · rfl
  · intro hcontra
    rw [show (TokenizeData.make_api_call (fun _ => 429)).2.2 = [1, 1, 1] from rfl] at hcontra
    simp at hcontra

/-- C6 (code-bug evidence): a 2-row chunk answered by HTTP 200 with an
empty records list. In tokenize_data.py the well-formedness check passes
vacuously, so nothing is logged and the chunk result writes no output
row and no failed-records row: both rows vanish from every sink. In the
CSV/Postgres variant the same response makes process_chunk raise
IndexError (records[0] on an empty list) without having logged the
unexpected-structure error; the exception propagates out of
completed_future.result() and aborts the run. The claim says the chunk
is logged as failed and its rows land in the Failure Sink. -/
theorem malformed_200_drops_rows :
    TokenizeData.process_chunk
      [[("name", "A"), ("ssn", "111")], [("name", "B"), ("ssn", "222")]]
      ["name", "ssn"] ⟨200, some []⟩
      = ⟨[], [], false⟩ ∧
    (CSVTok.csvAssemble [["A", "111"], ["B", "222"]] ["skyflow_id", "name", "ssn"] []
      ⟨200, some []⟩).1 = .error "IndexError" ∧
    (CSVTok.csvAssemble [["A", "111"], ["B", "222"]] ["skyflow_id", "name", "ssn"] []
      ⟨200, some []⟩).2 = false :=
  ⟨rfl, rfl, rfl⟩

/-- C7: for every chunk whose rows are at least as wide as the column
list, the request payload holds exactly one sub-record per row; each
sub-record's field keys are exactly the tokenize-tagged columns (the
columns after skyflow_id not in the skip list), each carried value is
that row's value at the column's first position, and no skip-tagged
column ever appears as a transmitted field. -/
theorem payload_sends_exactly_tokenize_columns
    (rows : List (List String)) (all_columns skip_columns : List String)
    (hlen : ∀ row ∈ rows, (all_columns.drop 1).length ≤ row.length) :
    ((CSVTok.buildPayload rows all_columns skip_columns).length = rows.length) ∧
    (CSVTok.buildPayload rows all_columns skip_columns
      = rows.map (CSVTok.payloadRecord all_columns skip_columns)) ∧
    (∀ row ∈ rows,
      ((CSVTok.payloadRecord all_columns skip_columns row).map Prod.fst
        = (all_columns.drop 1).filter (fun c => !(skip_columns.contains c))) ∧
      (∀ col ∈ all_columns.drop 1, col ∉ skip_columns →
        (col, row[(all_columns.drop 1).indexOf col]?)
          ∈ CSVTok.payloadRecord all_columns skip_columns row ∧
        (row[(all_columns.drop 1).indexOf col]?).isSome) ∧
      (∀ col ∈ skip_columns, ∀ v, (col, v) ∉ CSVTok.payloadRecord all_columns skip_columns row)) := by
  refine ⟨by simp [CSVTok.buildPayload], rfl, ?_⟩
  intro row hrow
  refine ⟨payloadRecord_keys _ _ _, ?_, ?_⟩
  · intro col hcol hns
    have hidx : (all_columns.drop 1).indexOf col < (all_columns.drop 1).length :=
      List.indexOf_lt_length.mpr hcol
    constructor
    · rw [CSVTok.payloadRecord]
      rw [List.mem_filterMap]
      refine ⟨((all_columns.drop 1).indexOf col, col), ?_, ?_⟩
      · rw [List.mem_enum_iff_getElem?]
        rw [List.getElem?_eq_getElem hidx]
        simp [List.getElem_indexOf]
      · simp [hns]
    · rw [List.getElem?_eq_getElem (by have := hlen row hrow; omega)]
      simp
  · intro col hcs v hmem
    rw [CSVTok.payloadRecord, List.mem_filterMap] at hmem
    obtain ⟨p, _, hp⟩ := hmem
    by_cases hc : p.2 ∈ skip_columns
    · simp [hc] at hp
    · simp [hc] at hp
      obtain ⟨hpc, -⟩ := hp
      rw [← hpc] at hcs
      exact hc hcs

/-- C7 witness: the spec's end-to-end example — columns name, ssn, city
with city skipped — yields three sub-records whose keys are exactly name
and ssn, and no skipped field is transmitted. -/
theorem payload_sends_exactly_tokenize_columns_witness :
    ((CSVTok.buildPayload sampleDataRows ["skyflow_id", "name", "ssn", "city"] ["city"]).length
      = sampleDataRows.length) ∧
    ((CSVTok.payloadRecord ["skyflow_id", "name", "ssn", "city"] ["city"] ["A", "111", "X"]).map
        Prod.fst
      = (["skyflow_id", "name", "ssn", "city"].drop 1).filter
          (fun c => !((["city"] : List String).contains c))) ∧
    (∀ col ∈ (["city"] : List String), ∀ v,
      (col, v) ∉ CSVTok.payloadRecord ["skyflow_id", "name", "ssn", "city"] ["city"] ["A", "111", "X"]) :=
  ⟨(payload_sends_exactly_tokenize_columns sampleDataRows _ _ (by decide)).1,
   ((payload_sends_exactly_tokenize_columns sampleDataRows _ _ (by decide)).2.2
      ["A", "111", "X"] (by decide)).1,
   ((payload_sends_exactly_tokenize_columns sampleDataRows _ _ (by decide)).2.2
      ["A", "111", "X"] (by decide)).2.2⟩

/-- C8: for a successful chunk outcome — HTTP 200, a records entry per
row, every record carrying its tokens map — with distinct column names
and rows at least as wide as the column list, the Assembler produces
exactly one OutputRow per row, equal to the spec-side construction: the
record_id from the response followed, for each column after record_id,
by the returned token when the column is tokenize-tagged and a token is
present, and the original field value otherwise (including when the
service omits a token for a tokenize-tagged field); no row is dropped. -/
theorem assembler_builds_one_output_row_per_row
    (rows : List (List String)) (all_columns skip_columns : List String)
    (recs : List RespRecord)
    (hnd : (all_columns.drop 1).Nodup)
    (hlen : ∀ row ∈ rows, (all_columns.drop 1).length ≤ row.length)
    (hrecs : recs.length = rows.length)
    (htok : ∀ r ∈ recs, r.tokens.isSome) :
    ((CSVTok.csvAssemble rows all_columns skip_columns ⟨200, some recs⟩).1
      = .ok ((rows.zip recs).map
          (fun p => specOutputRow p.2 (all_columns.drop 1) skip_columns p.1))) ∧
    (((rows.zip recs).map
        (fun p => specOutputRow p.2 (all_columns.drop 1) skip_columns p.1)).length
      = rows.length) := by
  constructor
  · exact csvAssemble_success rows all_columns skip_columns recs hnd hlen hrecs htok
  · rw [List.length_map, List.length_zip, hrecs]
    omega

/-- C8 witness: the three sample rows with columns name, ssn, city (city
skipped) and the sample response; the second record omits the ssn token
and the original value is kept, as the evaluation below shows. -/
theorem assembler_builds_one_output_row_per_row_witness :
    ((CSVTok.csvAssemble sampleDataRows ["skyflow_id", "name", "ssn", "city"] ["city"]
        ⟨200, some sampleRecs⟩).1
      = .ok ((sampleDataRows.zip sampleRecs).map
          (fun p => specOutputRow p.2 (["skyflow_id", "name", "ssn", "city"].drop 1) ["city"] p.1))) ∧
    (((sampleDataRows.zip sampleRecs).map
        (fun p => specOutputRow p.2 (["skyflow_id", "name", "ssn", "city"].drop 1) ["city"] p.1)).length
      = sampleDataRows.length) :=
  assembler_builds_one_output_row_per_row sampleDataRows _ _ sampleRecs
    (by decide) (by decide) (by decide) (by decide)

/-- The witness instance evaluated: tokens substituted for name and ssn,
the omitted ssn token of row two falling back to the original 222, and
the skipped city column passed through unchanged. -/
theorem sampleAssemble_eval :
    (CSVTok.csvAssemble sampleDataRows ["skyflow_id", "name", "ssn", "city"] ["city"]
        ⟨200, some sampleRecs⟩).1
      = .ok [[some "id0", some "nA", some "sA", some "X"],
             [some "id1", some "nB", some "222", some "Y"],
             [some "id2", some "nC", some "sC", some "Z"]] := by rfl

/-- C10: tokenize_data.py truncates the failed-records file at startup,
before any chunk is dispatched; whatever the file held before the run
has no effect on its final contents, which are exactly the original rows
(in fieldnames order) of the chunks whose final response was non-200 in
this run, in completion order. -/
theorem failed_file_truncated_at_startup
    (prior prior2 : List (List (Option String)))
    (chunks : List (List TokenizeData.DRow)) (fieldnames : List String)
    (resp : Nat → Resp) (order : List Nat) :
    (TokenizeData.failedFileAfterRun prior chunks fieldnames resp order
      = TokenizeData.failedFileAfterRun prior2 chunks fieldnames resp order) ∧
    (TokenizeData.failedFileAfterRun prior chunks fieldnames resp order
      = (order.filter (fun i => !((resp i).status == 200))).flatMap
          (fun i => (chunks.getD i []).map (TokenizeData.projectRow fieldnames))) := by
  constructor
  · rfl
  · rw [TokenizeData.failedFileAfterRun, TokenizeData.truncateFailedFile, List.nil_append,
      TokenizeData.runFailed]
    apply flatMap_eq_filter_flatMap
    intro i
    constructor
    · intro hp
      have hne : ¬ ((resp i).status = 200) := by simpa using hp
      rw [TokenizeData.runChunk, TokenizeData.process_chunk, if_neg hne]
    · intro hp
      have heq : (resp i).status = 200 := by simpa using hp
      rw [TokenizeData.runChunk, TokenizeData.process_chunk, if_pos heq]

/-- C1 amended: when exactly chunk k permanently fails and every other
chunk succeeds with a well-formed response, then for any completion
order (a permutation of the chunk indices) in either variant the run
completes and the final output contains an OutputRow for every row
outside chunk k. In tokenize_data.py every successful chunk writes one
output row per chunk row, all present in the final output, and the
failed-records file holds exactly chunk k's original rows in their
original field order. In the CSV/Postgres variant the run returns a
normal (non-exception) output — the concatenation, in completion order,
of the per-chunk results — in which every successful chunk likewise
contributes exactly one OutputRow per chunk row, all present in that
output, while chunk k contributes the empty result: this variant has no
failure sink, so the failed rows are recorded nowhere (only an error
log). -/
theorem chunk_failure_isolation_amended
    (chunks : List (List TokenizeData.DRow)) (fieldnames : List String)
    (resp : Nat → Resp) (order : List Nat) (k : Nat)
    (hk : k < chunks.length)
    (hperm : order.Perm (List.range chunks.length))
    (hfail : (resp k).status ≠ 200)
    (hsucc : ∀ i < chunks.length, i ≠ k → (resp i).status = 200 ∧
      ∃ recs, (resp i).records = some recs ∧ recs.length = (chunks.getD i []).length)
    (chunksC : List (List (List String))) (all_columns skip_columns : List String)
    (respC : Nat → Resp) (orderC : List Nat) (kC : Nat)
    (hndC : (all_columns.drop 1).Nodup)
    (hwidC : ∀ i < chunksC.length, ∀ row ∈ chunksC.getD i [],
      (all_columns.drop 1).length ≤ row.length)
    (hkC : kC < chunksC.length)
    (hpermC : orderC.Perm (List.range chunksC.length))
    (hfailC : (respC kC).status ≠ 200)
    (hsuccC : ∀ i < chunksC.length, i ≠ kC → (respC i).status = 200 ∧
      ∃ recs, (respC i).records = some recs ∧ recs.length = (chunksC.getD i []).length ∧
        ∀ r ∈ recs, r.tokens.isSome) :
    (∀ i < chunks.length, i ≠ k →
      ((TokenizeData.runChunk chunks fieldnames resp i).written.length
        = (chunks.getD i []).length) ∧
      (∀ w ∈ (TokenizeData.runChunk chunks fieldnames resp i).written,
        w ∈ TokenizeData.runWritten chunks fieldnames resp order)) ∧
    (TokenizeData.runFailed chunks fieldnames resp order
      = (chunks.getD k []).map (TokenizeData.projectRow fieldnames)) ∧
    (CSVTok.runWrites chunksC all_columns skip_columns respC orderC
      = .ok ((orderC.map
          (CSVTok.chunkResultRows chunksC all_columns skip_columns respC)).flatten)) ∧
    (∀ i < chunksC.length, i ≠ kC →
      ((CSVTok.csvAssemble (chunksC.getD i []) all_columns skip_columns (respC i)).1
        = .ok (CSVTok.chunkResultRows chunksC all_columns skip_columns respC i)) ∧
      ((CSVTok.chunkResultRows chunksC all_columns skip_columns respC i).length
        = (chunksC.getD i []).length) ∧
      (∀ w ∈ CSVTok.chunkResultRows chunksC all_columns skip_columns respC i,
        w ∈ (orderC.map
          (CSVTok.chunkResultRows chunksC all_columns skip_columns respC)).flatten)) ∧
    ((CSVTok.csvAssemble (chunksC.getD kC []) all_columns skip_columns (respC kC)).1
      = .ok []) := by
  have hfailEq : (CSVTok.csvAssemble (chunksC.getD kC []) all_columns skip_columns
      (respC kC)).1 = .ok [] := by
    rw [CSVTok.csvAssemble, if_neg hfailC]
  have hsuccEq : ∀ i < chunksC.length, i ≠ kC →
      ∃ recs, (respC i) = ⟨200, some recs⟩ ∧
        recs.length = (chunksC.getD i []).length ∧ ∀ r ∈ recs, r.tokens.isSome := by
    intro i hin hik
    obtain ⟨hst, recs, hrec, hlenr, htokr⟩ := hsuccC i hin hik
    refine ⟨recs, ?_, hlenr, htokr⟩
    calc respC i = ⟨(respC i).status, (respC i).records⟩ := rfl
      _ = ⟨200, some recs⟩ := by rw [hst, hrec]
  have hokAll : ∀ i ∈ orderC,
      ∃ L, (CSVTok.csvAssemble (chunksC.getD i []) all_columns skip_columns (respC i)).1
        = .ok L := by
    intro i hi
    have hin : i < chunksC.length := List.mem_range.mp (hpermC.mem_iff.mp hi)
    by_cases hik : i = kC
    · subst hik
      exact ⟨[], hfailEq⟩
    · obtain ⟨recs, hre, hlenr, htokr⟩ := hsuccEq i hin hik
      rw [hre]
      exact ⟨_, csvAssemble_success _ all_columns skip_columns recs hndC
        (hwidC i hin) hlenr htokr⟩
  refine ⟨?_, ?_, runWrites_ok chunksC all_columns skip_columns respC orderC hokAll,
    ?_, hfailEq⟩
  · intro i hi hik
    obtain ⟨hst, recs, hrec, hlen⟩ := hsucc i hi hik
    have hw : (TokenizeData.runChunk chunks fieldnames resp i).written.length
        = (chunks.getD i []).length := by
      rw [TokenizeData.runChunk, TokenizeData.process_chunk, if_pos hst]
      simp [hrec, hlen]
    refine ⟨hw, ?_⟩
    intro w hwmem
    rw [TokenizeData.runWritten]
    rw [List.mem_flatMap]
    exact ⟨i, hperm.mem_iff.mpr (List.mem_range.mpr hi), hwmem⟩
  · rw [TokenizeData.runFailed]
    have hcount : order.count k = 1 := by
      rw [hperm.count_eq k]
      exact List.count_eq_one_of_mem (List.nodup_range _) (List.mem_range.mpr hk)
    rw [flatMap_single _ k order hcount ?h0]
    · rw [TokenizeData.runChunk, TokenizeData.process_chunk, if_neg hfail]
    · intro i hi hik
      have himem : i < chunks.length := by
        have := hperm.mem_iff.mp hi
        exact List.mem_range.mp this
      obtain ⟨hst, -⟩ := hsucc i himem hik
      rw [TokenizeData.runChunk, TokenizeData.process_chunk, if_pos hst]
  · intro i hin hik
    have hmemC : i ∈ orderC := hpermC.mem_iff.mpr (List.mem_range.mpr hin)
    have hEq : (CSVTok.csvAssemble (chunksC.getD i []) all_columns skip_columns
        (respC i)).1
        = .ok (CSVTok.chunkResultRows chunksC all_columns skip_columns respC i) := by
      rw [CSVTok.chunkResultRows]
      exact except_eq_ok_extract _ [] (hokAll i hmemC)
    refine ⟨hEq, ?_, ?_⟩
    · obtain ⟨recs, hre, hlenr, htokr⟩ := hsuccEq i hin hik
      have hspec := csvAssemble_success (chunksC.getD i []) all_columns skip_columns recs
        hndC (hwidC i hin) hlenr htokr
      rw [hre] at hEq
      rw [hEq] at hspec
      have hlist := Except.ok.inj hspec
      rw [hlist, List.length_map, List.length_zip, hlenr]
      omega
    · intro w hw
      rw [List.mem_flatten]
      exact ⟨CSVTok.chunkResultRows chunksC all_columns skip_columns respC i,
        List.mem_map_of_mem _ hmemC, hw⟩

/-- C1 witness: two chunks in each variant, chunk 0 failing with 500 on
every attempt, completion order reversed. The failed-records file of
tokenize_data.py holds exactly chunk 0's row, and the CSV-variant run
returns a normal output assembled from the per-chunk results. -/
theorem chunk_failure_isolation_amended_witness :
    (TokenizeData.runFailed sampleChunksD ["name"] sampleRespFun [1, 0]
      = (sampleChunksD.getD 0 []).map (TokenizeData.projectRow ["name"])) ∧
    (CSVTok.runWrites cexChunks ["skyflow_id", "name"] [] cexResp [1, 0]
      = .ok (([1, 0].map
          (CSVTok.chunkResultRows cexChunks ["skyflow_id", "name"] [] cexResp)).flatten)) := by
  have h := chunk_failure_isolation_amended sampleChunksD ["name"] sampleRespFun [1, 0] 0
    (by decide) (by decide) (by decide)
    (by
      intro i hi hik
      have hlen2 : sampleChunksD.length = 2 := rfl
      have h1 : i = 1 := by omega
      subst h1
      exact ⟨rfl, [⟨some "id1", some [("name", "tokB")]⟩], rfl, rfl⟩)
    cexChunks ["skyflow_id", "name"] [] cexResp [1, 0] 0
    (by decide) (by decide) (by decide) (by decide) (by decide)
    (by
      intro i hi hik
      have hlen2 : cexChunks.length = 2 := rfl
      have h1 : i = 1 := by omega
      subst h1
      exact ⟨rfl, [⟨some "sid1", some [("name", "tokB")]⟩], rfl, rfl, by decide⟩)
  exact ⟨h.2.1, h.2.2.1⟩

/-- C1 counterexample: in the CSV variant, run the same two chunks with
chunk 0 permanently failing (500 on every attempt). The complete written
output of the run is only chunk 1's tokenized row; chunk 0's row A
appears in nothing the run writes — the variant has no failure sink at
all, so the Failure Sink cannot contain chunk 0's rows, contradicting
the claim for this cited process_chunk implementation. -/
theorem chunk_failure_isolation_counterexample :
    (CSVTok.runWrites cexChunks ["skyflow_id", "name"] [] cexResp [0, 1]
      = .ok [[some "sid1", some "tokB"]]) ∧
    (∀ out ∈ [[(some "sid1" : Option String), some "tokB"]], some "A" ∉ out) :=
  ⟨rfl, by decide⟩

/-- C2 (code-bug evidence): the same two successful chunks written under
the two possible completion orders. When chunk 1 completes first the
output lists source row 1 before source row 0 — the two orders give
different, unequal outputs, so the final stream follows completion
order, not the ascending source order the claim requires. -/
theorem output_order_follows_completion_order :
    (CSVTok.runWrites orderedChunks ["skyflow_id", "name"] [] orderedResp [1, 0]
      = .ok [[some "sid1", some "tokB"], [some "sid0", some "tokA"]]) ∧
    (CSVTok.runWrites orderedChunks ["skyflow_id", "name"] [] orderedResp [0, 1]
      = .ok [[some "sid0", some "tokA"], [some "sid1", some "tokB"]]) ∧
    ([[(some "sid1" : Option String), some "tokB"], [some "sid0", some "tokA"]]
      ≠ [[some "sid0", some "tokA"], [some "sid1", some "tokB"]]) :=
  ⟨rfl, rfl, by decide⟩

/-- C9 counterexample: with rows_per_chunk = -1 (a value at most 0) the
program raises no error of any kind — the offset range is simply empty,
so the run completes normally having dispatched nothing; there is no
ConfigError check anywhere in the scripts. -/
theorem chunk_size_config_counterexample :
    (CSVTok.pyRange0 100 (-1) = .ok []) ∧
    (¬ ∃ e, CSVTok.pyRange0 100 (-1) = .error e) := by
  constructor
  · rfl
  · intro h
    obtain ⟨e, he⟩ := h
    rw [show CSVTok.pyRange0 100 (-1) = .ok [] from rfl] at he
    exact Except.noConfusion he

/-- C9 amended: the scripts never validate rows_per_chunk. A value of 0
raises ValueError when range(0, row_count, 0) is built — before any
chunk is dispatched, but a ValueError from the loop, not a ConfigError
at configuration time; a negative value yields an empty offset sequence
and the run completes without dispatching or erring; any value at least
1 yields the full offset sequence with no error. -/
theorem chunk_size_validation_amended (rc : Nat) (step : Int) :
    (step = 0 →
      CSVTok.pyRange0 rc step = .error "ValueError: range() arg 3 must not be zero") ∧
    (step < 0 → CSVTok.pyRange0 rc step = .ok []) ∧
    (1 ≤ step → CSVTok.pyRange0 rc step = .ok (CSVTok.chunkOffsets rc step.toNat)) := by
  refine ⟨?_, ?_, ?_⟩
  · intro h
    rw [CSVTok.pyRange0, if_pos h]
  · intro h
    rw [CSVTok.pyRange0, if_neg (by omega), if_pos h]
  · intro h
    have h1 : 0 < step.toNat := by omega
    have h2 : (step.toNat : Int) = step := by omega
    rw [← h2]
    exact pyRange0_pos rc step.toNat h1

/-- C9 witness: the three regimes at row count 10. -/
theorem chunk_size_validation_amended_witness :
    (CSVTok.pyRange0 10 0 = .error "ValueError: range() arg 3 must not be zero") ∧
    (CSVTok.pyRange0 10 (-1) = .ok []) ∧
    (CSVTok.pyRange0 10 3 = .ok (CSVTok.chunkOffsets 10 3)) :=
  ⟨(chunk_size_validation_amended 10 0).1 rfl,
   (chunk_size_validation_amended 10 (-1)).2.1 (by decide),
   (chunk_size_validation_amended 10 3).2.2 (by decide)⟩

end BulkTok
